import Mathlib

/-!
Shallow embedding of the snipe-bio/web front-end's orchestration and
worker-protocol logic (src/scripts/main.js and src/scripts/worker.js).

The UI thread's global mutable state (window.loadedGenomeSig,
window.loadedYchrSig, window.loadedAmpliconSig, window.specificChrsLoaded,
mainDataLoaded, activeFileIds and the results table) is modelled as an
explicit `UIState` record.  DOM / worker side effects are modelled as
explicit action traces.  JavaScript values that flow into truthiness tests
and table cells are modelled by `JSVal`.
-/

namespace SnipeWeb

/-- A JavaScript value as it can appear in a metrics record or a global
slot: null, undefined, a boolean, an integer number, or a string.
(Float NaN is not modelled; no claim depends on it.) -/
inductive JSVal where
  | vNull
  | vUndefined
  | vBool (b : Bool)
  | vNum (n : Int)
  | vStr (s : String)
  deriving DecidableEq, Repr

/-- JavaScript truthiness of a `JSVal`: null, undefined, false, 0 and the
empty string are falsy. -/
def JSVal.truthy : JSVal → Bool
  | .vNull => false
  | .vUndefined => false
  | .vBool b => b
  | .vNum n => decide (n ≠ 0)
  | .vStr s => decide (s ≠ "")

/-- String conversion applied when a `JSVal` is assigned to
`Element.textContent`. -/
def JSVal.toDisplayString : JSVal → String
  | .vNull => "null"
  | .vUndefined => "undefined"
  | .vBool b => if b then "true" else "false"
  | .vNum n => toString n
  | .vStr s => s

/-- Truthiness of a global slot that holds either a string or
null/undefined (e.g. `window.loadedGenomeSig`): absent or empty is falsy.
`!window.loadedGenomeSig` in the source is `strOptFalsy`. -/
def strOptFalsy : Option String → Bool
  | none => true
  | some s => decide (s = "")

/-- The fixed, ordered field list of the `result_json` dictionary built by
the Python snippet in worker.js (lines 87-124). -/
def metricsFields : List String :=
  ["SRA Experiment accession",
   "BioSample accession",
   "BioProject accession",
   "SRA Assay type",
   "Number of bases",
   "Library Layout",
   "Total unique k-mers",
   "Genomic unique k-mers",
   "Exome unique k-mers",
   "Genome coverage index",
   "Exome coverage index",
   "k-mer total abundance",
   "k-mer mean abundance",
   "Genomic k-mers total abundance",
   "Genomic k-mers mean abundance",
   "Genomic k-mers median abundance",
   "Exome k-mers total abundance",
   "Exome k-mers mean abundance",
   "Exome k-mers median abundance",
   "Mapping index",
   "Predicted contamination index",
   "Empirical contamination index",
   "Sequencing errors index",
   "Autosomal k-mer mean abundance CV",
   "Exome enrichment score",
   "Predicted Assay type",
   "chrX Ploidy score",
   "chrY Coverage score",
   "Median-trimmed relative coverage",
   "Relative mean abundance",
   "Relative coverage",
   "Coverage of 1fold more sequencing",
   "Coverage of 2fold more sequencing",
   "Coverage of 5fold more sequencing",
   "Coverage of 9fold more sequencing",
   "Relative total abundance"]

/-- worker.js `result_json`: for each field of `metricsFields`, in order,
`result.get(field, "N/A")` — the black-box function's output is the partial
map `result`; absent fields become the sentinel string "N/A". -/
def result_json (result : String → Option JSVal) : List (String × JSVal) :=
  metricsFields.map (fun k => (k, (result k).getD (JSVal.vStr "N/A")))

/-- A message posted by the worker to the UI thread (worker.js
`self.postMessage`). -/
inductive WorkerMsg where
  | pyodideReady
  | errorMsg (message : String)
  | progress (fileId : String) (percentage : Nat) (statusText : String)
      (error : Option String)
  | result (fileId : String) (record : List (String × JSVal))
  deriving DecidableEq, Repr

/-- worker.js lines 132-136: `const resultObj = result.toJs()` converts
the Python `result_json` dict into a JS `Map` of its entries (the default
dict converter of Pyodide 0.26.2), and
`const serializableResult = JSON.parse(JSON.stringify(resultObj))` then
drops them all: `JSON.stringify` serializes an object's own enumerable
string-keyed properties, of which a `Map` instance has none, so it
produces the empty-object literal whatever the entries, and parsing that
yields a record with no fields. -/
def serializableResult (entries : List (String × JSVal)) :
    List (String × JSVal) :=
  []

/-- worker.js `self.onmessage` handling of one `process-signature` request
(lines 40-147): the messages it posts, in order.  The Pyodide call
`runPythonAsync` is the black box `pyOutcome`: on success it yields the
field map returned by `process_sample`; on an exception it yields the
error message.  The posted result record is the Python dict after the
lossy `toJs` / JSON round trip of lines 132-136. -/
def workerProcess (fileId fileName : String)
    (pyOutcome : Except String (String → Option JSVal)) : List WorkerMsg :=
  WorkerMsg.progress fileId 50 "Setting up Python environment..." none ::
  WorkerMsg.progress fileId 60 "Running Python processing..." none ::
  (match pyOutcome with
   | .ok res =>
      [WorkerMsg.progress fileId 100 "Completed" none,
       WorkerMsg.result fileId (serializableResult (result_json res))]
   | .error e =>
      [WorkerMsg.progress fileId 100 "Failed" (some e)])

/-- The percentages of the progress messages of a trace, in emission
order. -/
def progressPercentages (msgs : List WorkerMsg) : List Nat :=
  msgs.filterMap (fun m => match m with
    | .progress _ p _ _ => some p
    | _ => none)

/-- Number of `result` messages in a trace carrying the given fileId. -/
def resultCountFor (fileId : String) (msgs : List WorkerMsg) : Nat :=
  (msgs.filter (fun m => match m with
    | .result fid _ => fid == fileId
    | _ => false)).length

/-- The results table: header cells (empty list = header not yet created,
i.e. `resultsTableHead.innerHTML.trim() === ''`), data rows as lists of
cell texts, and visibility of `resultsTableContainer`. -/
structure TableState where
  header : List String
  rows : List (List String)
  visible : Bool
  deriving DecidableEq, Repr

/-- The UI thread's global state (main.js globals plus the window slots
and the current dropdown selections read by the handlers). -/
structure UIState where
  loadedGenomeSig : Option String
  loadedYchrSig : Option String
  loadedAmpliconSig : Option String
  specificChrsLoaded : Option (List (String × String))
  mainDataLoaded : Bool
  activeFileIds : Finset String
  selectedSpecies : String
  selectedGenome : String
  selectedYchr : String
  selectedAmplicon : String
  table : TableState
  deriving DecidableEq

/-- An observable side effect of the UI thread: a progress-bar update, an
`alert`, or a `worker.postMessage` of a `process-signature` request. -/
inductive UIAction where
  | updateProgress (fileId : String) (percentage : Nat) (statusText : String)
      (barClass : String)
  | alert (msg : String)
  | postToWorker (fileId fileName sigContent genomeContent ychrContent : String)
      (specificChrsContent : List (String × String))
      (ampliconContent : Option String)
  deriving DecidableEq, Repr

/-- The `postToWorker` actions of a trace (what reaches the worker
channel). -/
def workerPosts (acts : List UIAction) : List UIAction :=
  acts.filter (fun a => match a with
    | .postToWorker _ _ _ _ _ _ _ => true
    | _ => false)

/-- `speciesData[species].genomes[genome].specific_chrs` from the
`speciesData` constant of main.js; `none` when the lookup would throw. -/
def speciesData_specific_chrs : String → String → Option (List String)
  | "dog", "canfam3.1" =>
      some ["1", "2", "3", "4", "5", "6", "7", "8", "9", "10",
            "11", "12", "13", "14", "15", "16", "17", "18",
            "19", "20", "21", "22", "23", "24", "25", "26",
            "27", "28", "29", "30", "31", "32", "33", "34",
            "35", "36", "37", "38", "X", "Y"]
  | "human", "hg38" =>
      some ["1", "2", "3", "4", "5", "6", "7", "8", "9", "10",
            "11", "12", "13", "14", "15", "16", "17", "18",
            "19", "20", "21", "22", "X", "Y"]
  | "human", "other_genome" => some ["1", "2", "3", "X", "Y"]
  | _, _ => none

/-- The text placed in a result cell: `result[key] || 'N/A'` — the value's
display string when truthy, the sentinel "N/A" otherwise. -/
def resultCellText (v : JSVal) : String :=
  if v.truthy then v.toDisplayString else "N/A"

/-- main.js `displayResultsInTable(result, fileId, fileName)` (lines
413-459): creates the header from the first record's keys if absent,
appends one row of `resultCellText` cells (the File ID and Sample Name
cells are built but never appended — lines 439 and 444 are commented out),
shows the container, and deletes the fileId from the active set. -/
def displayResultsInTable (st : UIState) (record : List (String × JSVal))
    (fileId : String) : UIState :=
  let keys := record.map Prod.fst
  let header := if st.table.header.isEmpty then keys else st.table.header
  let row := record.map (fun kv => resultCellText kv.2)
  { st with
    table := { header := header, rows := st.table.rows ++ [row], visible := true },
    activeFileIds := st.activeFileIds.erase fileId }

/-- main.js `removeTableRow(sampleName, fileId)` (lines 300-323): drops
every row with more than one cell whose cell 0 equals the fileId (when a
truthy fileId is given) or whose cell 1 equals the sampleName (otherwise);
hides the container when no rows remain. -/
def removeTableRow (tbl : TableState) (sampleName : String)
    (fileId : Option String) : TableState :=
  let keep := fun (row : List String) =>
    if 1 < row.length then
      if strOptFalsy fileId then !(row.getD 1 "" == sampleName)
      else !(row.getD 0 "" == fileId.getD "")
    else true
  let rows := tbl.rows.filter keep
  { tbl with
    rows := rows
    visible := if rows.isEmpty then false else tbl.visible }

/-- main.js `processSignature(fileName, sigContent, fileId)` (lines
326-411), as the new state plus the trace of effects.  The `serializable`
flag abstracts whether `JSON.parse(JSON.stringify(data))` succeeds for the
assembled request; when it throws, the catch at lines 399-403 runs and no
`postMessage` is made.  A failing `speciesData` lookup throws and lands in
the outer catch (lines 405-410). -/
def processSignature (st : UIState) (fileName sigContent fileId : String)
    (serializable : Bool) : UIState × List UIAction :=
  let act10 := UIAction.updateProgress fileId 10 "Starting..." "bg-info"
  if strOptFalsy st.loadedGenomeSig then
    ({ st with activeFileIds := st.activeFileIds.erase fileId },
     [act10,
      UIAction.alert "Genome file is not loaded. Please load genome data first.",
      UIAction.updateProgress fileId 100 "Failed: Genome not loaded" "bg-danger"])
  else if strOptFalsy st.loadedYchrSig then
    ({ st with activeFileIds := st.activeFileIds.erase fileId },
     [act10,
      UIAction.alert
        "Y Chromosome file is not loaded. Please load Y Chromosome data first.",
      UIAction.updateProgress fileId 100 "Failed: Y Chromosome not loaded"
        "bg-danger"])
  else
    match speciesData_specific_chrs st.selectedSpecies st.selectedGenome with
    | none =>
        ({ st with activeFileIds := st.activeFileIds.erase fileId },
         [act10, UIAction.updateProgress fileId 100 "Failed" "bg-danger"])
    | some specificChrs =>
        let specificChrsContent := specificChrs.map (fun chr =>
          (chr, (((st.specificChrsLoaded.getD []).lookup chr).getD "")))
        let act40 := UIAction.updateProgress fileId 40
          "Preparing data for processing..." "bg-info"
        let ampliconContent : Option String :=
          if strOptFalsy st.loadedAmpliconSig then none else st.loadedAmpliconSig
        if serializable then
          (st,
           [act10, act40,
            UIAction.postToWorker fileId fileName sigContent
              (st.loadedGenomeSig.getD "") (st.loadedYchrSig.getD "")
              specificChrsContent ampliconContent])
        else
          ({ st with activeFileIds := st.activeFileIds.erase fileId },
           [act10, act40,
            UIAction.updateProgress fileId 100 "Failed: Data serialization error"
              "bg-danger"])

/-- main.js `worker.onmessage` (lines 15-47): dispatch of one message from
the worker, as the new state plus the trace of UI effects.  Progress and
result events whose fileId is not in `activeFileIds` are ignored with a
console warning only. -/
def handleWorkerMessage (st : UIState) : WorkerMsg → UIState × List UIAction
  | .pyodideReady => (st, [])
  | .errorMsg message => (st, [UIAction.alert message])
  | .progress fileId percentage statusText error =>
      if fileId ∈ st.activeFileIds then
        let barClass :=
          if percentage = 100 ∧ statusText = "Completed" then "bg-success"
          else if statusText.startsWith "Failed" then "bg-danger"
          else "bg-info"
        (st,
         [UIAction.updateProgress fileId percentage statusText barClass] ++
         (if percentage = 100 ∧ statusText.startsWith "Failed" then
            [UIAction.alert ("Processing failed for " ++ fileId ++ ": " ++
              (error.getD "undefined"))]
          else []))
      else (st, [])
  | .result fileId record =>
      if fileId ∈ st.activeFileIds then
        (displayResultsInTable st record fileId, [])
      else (st, [])

/-- Path of the genome signature file (main.js line 616). -/
def genomePath (species genome : String) : String :=
  "data/species/" ++ species ++ "/genomes/" ++ genome ++ "/" ++ genome ++ ".sig"

/-- Path of the Y-chromosome signature file (main.js line 617). -/
def ychrPath (species ychr : String) : String :=
  "data/species/" ++ species ++ "/y_chr/" ++ ychr ++ ".sig"

/-- Path of the amplicon signature file (main.js line 618). -/
def ampliconPath (species amplicon : String) : String :=
  "data/species/" ++ species ++ "/amplicons/" ++ amplicon ++ ".sig"

/-- Path of a specific-chromosome signature file (main.js line 646). -/
def chrPath (species genome chr : String) : String :=
  "data/species/" ++ species ++ "/genomes/" ++ genome ++
    "/specific_chrs/" ++ chr ++ ".sig"

/-- The fetch environment: `fetch p = some content` models an `ok`
response with that body, `none` a failed / not-ok fetch of path `p`. -/
structure FetchEnv where
  fetch : String → Option String

/-- Outcome of the load-data click handler. -/
inductive LoadResult where
  | alreadyLoaded
  | ok
  | loadError (msg : String)
  deriving DecidableEq, Repr

/-- main.js load-data-button click handler (lines 604-697).  Mutation
order follows the source: `window.specificChrsLoaded` is assigned (line
643) and filled before the amplicon fetch, so a failing amplicon fetch
leaves it already overwritten; the genome/ychr/amplicon slots and
`mainDataLoaded` are only assigned after every fetch succeeded (lines
678-690).  A failed specific-chromosome fetch is tolerated and stored as
the empty string. -/
def loadData (env : FetchEnv) (st : UIState) : UIState × LoadResult :=
  if st.mainDataLoaded then (st, .alreadyLoaded)
  else
    let gp := genomePath st.selectedSpecies st.selectedGenome
    let yp := ychrPath st.selectedSpecies st.selectedYchr
    match env.fetch gp with
    | none => (st, .loadError ("Genome file not found: " ++ gp))
    | some genomeContent =>
      match env.fetch yp with
      | none => (st, .loadError ("Y Chromosome file not found: " ++ yp))
      | some ychrContent =>
        match speciesData_specific_chrs st.selectedSpecies st.selectedGenome with
        | none => (st, .loadError "speciesData lookup failed")
        | some chrs =>
          let fetchedChrs := chrs.map (fun chr =>
            (chr, (env.fetch
              (chrPath st.selectedSpecies st.selectedGenome chr)).getD ""))
          let st1 := { st with specificChrsLoaded := some fetchedChrs }
          if st.selectedAmplicon = "" then
            ({ st1 with
                loadedGenomeSig := some genomeContent
                loadedYchrSig := some ychrContent
                loadedAmpliconSig := none
                mainDataLoaded := true }, .ok)
          else
            let ap := ampliconPath st.selectedSpecies st.selectedAmplicon
            match env.fetch ap with
            | none => (st1, .loadError ("Amplicon file not found: " ++ ap))
            | some ampliconContent =>
              ({ st1 with
                  loadedGenomeSig := some genomeContent
                  loadedYchrSig := some ychrContent
                  loadedAmpliconSig := some ampliconContent
                  mainDataLoaded := true }, .ok)

/-- The values `ampliconContent` can carry in a `process-signature`
request: main.js sets it to `null` or to the loaded amplicon string
(processSignature lines 377-381). -/
inductive AmpliconPayload where
  | null
  | str (s : String)
  deriving DecidableEq, Repr

/-- JSON escaping of one character, as `JSON.stringify` performs inside a
string literal. -/
def jsonEscapeChar (c : Char) : String :=
  if c = '"' then "\\\""
  else if c = '\\' then "\\\\"
  else if c.val = 8 then "\\b"
  else if c.val = 9 then "\\t"
  else if c.val = 10 then "\\n"
  else if c.val = 12 then "\\f"
  else if c.val = 13 then "\\r"
  else if c.val < 32 then
    "\\u00" ++ String.singleton (Nat.digitChar (c.toNat / 16)) ++
      String.singleton (Nat.digitChar (c.toNat % 16))
  else String.singleton c

/-- `JSON.stringify` on the amplicon payload: `null` serializes to the
four-character string "null", a string serializes quote-wrapped with its
characters escaped. -/
def jsonStringifyAmplicon : AmpliconPayload → String
  | .null => "null"
  | .str s => "\"" ++ String.join (s.data.map jsonEscapeChar) ++ "\""

/-- worker.js line 53: the value bound to the Python variable
`amplicon_sig_str`, namely `JSON.stringify(ampliconContent) || '\x7b\x7d'`
(the fallback is the two-character object-literal string). -/
def amplicon_sig_str (v : AmpliconPayload) : String :=
  let j := jsonStringifyAmplicon v
  if j = "" then "\x7b\x7d" else j

/-! Concrete states used to instantiate the theorems. -/

/-- The empty results table (no header, no rows, container hidden). -/
def emptyTable : TableState := { header := [], rows := [], visible := false }

/-- A session state before any reference data has been loaded, with one
active task `file-1` and the human/hg38/Y1 selection. -/
def baseState : UIState where
  loadedGenomeSig := none
  loadedYchrSig := none
  loadedAmpliconSig := none
  specificChrsLoaded := none
  mainDataLoaded := false
  activeFileIds := {"file-1"}
  selectedSpecies := "human"
  selectedGenome := "hg38"
  selectedYchr := "Y1"
  selectedAmplicon := ""
  table := emptyTable

/-- `baseState` after a successful reference load of genome and Y
chromosome. -/
def loadedState : UIState :=
  { baseState with
      loadedGenomeSig := some "GENOMESIG"
      loadedYchrSig := some "YCHRSIG"
      mainDataLoaded := true }

/-- A metrics record in which the black-box function returned nothing:
every field carries the sentinel. -/
def recordNA : List (String × JSVal) := result_json (fun _ => none)

/-- A fetch environment where only the human/other_genome genome file and
the human Y1 y-chromosome file exist. -/
def env0 : FetchEnv where
  fetch := fun p =>
    if p = genomePath "human" "other_genome" then some "GENOMECONTENT"
    else if p = ychrPath "human" "Y1" then some "YCHRCONTENT"
    else none

/-- A state about to load human/other_genome with the amplicon `exome`
selected, carrying specific-chromosome data left over from an earlier
attempt. -/
def preLoadState : UIState :=
  { baseState with
      selectedGenome := "other_genome"
      selectedAmplicon := "exome"
      specificChrsLoaded := some [("1", "old")] }

/-! Theorems settling the claims. -/

/-- C1: a sample dispatched while the genome or Y-chromosome payload is
not loaded is marked Failed immediately ("Failed: Genome not loaded" or
the Y-chromosome variant), its id is removed from the active set, and no
message is posted to the worker. -/
theorem C1_dispatch_without_reference_fails (st : UIState)
    (fileName sigContent fileId : String) (serializable : Bool)
    (h : strOptFalsy st.loadedGenomeSig = true ∨
      strOptFalsy st.loadedYchrSig = true) :
    (UIAction.updateProgress fileId 100 "Failed: Genome not loaded" "bg-danger"
        ∈ (processSignature st fileName sigContent fileId serializable).2 ∨
     UIAction.updateProgress fileId 100 "Failed: Y Chromosome not loaded"
        "bg-danger"
        ∈ (processSignature st fileName sigContent fileId serializable).2) ∧
    fileId ∉ (processSignature st fileName sigContent fileId
      serializable).1.activeFileIds ∧
    workerPosts (processSignature st fileName sigContent fileId
      serializable).2 = [] := by
  cases hg : strOptFalsy st.loadedGenomeSig with
  | true =>
      refine ⟨Or.inl ?_, ?_, ?_⟩ <;>
        simp [processSignature, hg, workerPosts]
  | false =>
      have hy : strOptFalsy st.loadedYchrSig = true := by
        rcases h with h | h
        · rw [hg] at h; exact absurd h (by simp)
        · exact h
      refine ⟨Or.inr ?_, ?_, ?_⟩ <;>
        simp [processSignature, hg, hy, workerPosts]

/-- C1 witness: at `baseState` (no genome loaded) the hypotheses hold and
the conclusion evaluates. -/
theorem C1_dispatch_without_reference_fails_witness :
    (UIAction.updateProgress "file-1" 100 "Failed: Genome not loaded" "bg-danger"
        ∈ (processSignature baseState "sample1.sig" "SIG" "file-1" true).2 ∨
     UIAction.updateProgress "file-1" 100 "Failed: Y Chromosome not loaded"
        "bg-danger"
        ∈ (processSignature baseState "sample1.sig" "SIG" "file-1" true).2) ∧
    "file-1" ∉ (processSignature baseState "sample1.sig" "SIG" "file-1"
      true).1.activeFileIds ∧
    workerPosts (processSignature baseState "sample1.sig" "SIG" "file-1"
      true).2 = [] :=
  C1_dispatch_without_reference_fails baseState "sample1.sig" "SIG" "file-1" true
    (Or.inl rfl)

/-- C2 counterexample: on a successfully processed sample the worker's
progress percentages are 50, 60, 100 — not 10, 60, 90, 100 as the claim
states. -/
theorem C2_worker_percentages_counterexample :
    progressPercentages
      (workerProcess "file-1" "sample1.sig" (Except.ok (fun _ => none)))
      = [50, 60, 100] ∧
    ([50, 60, 100] : List Nat) ≠ [10, 60, 90, 100] :=
  ⟨rfl, by decide⟩

/-- C2 (amended): for every successfully processed sample, the worker
emits progress messages with percentages 50, 60, 100 in that order,
followed by exactly one result message for that fileId (whose record is
what survives the Map → JSON transport of worker.js:132-136). -/
theorem C2_worker_percentages_amended (fileId fileName : String)
    (res : String → Option JSVal) :
    workerProcess fileId fileName (Except.ok res) =
      [WorkerMsg.progress fileId 50 "Setting up Python environment..." none,
       WorkerMsg.progress fileId 60 "Running Python processing..." none,
       WorkerMsg.progress fileId 100 "Completed" none,
       WorkerMsg.result fileId (serializableResult (result_json res))] ∧
    progressPercentages (workerProcess fileId fileName (Except.ok res))
      = [50, 60, 100] ∧
    resultCountFor fileId (workerProcess fileId fileName (Except.ok res)) = 1 := by
  refine ⟨rfl, rfl, ?_⟩
  simp [resultCountFor, workerProcess, List.filter]

/-- C7: when the assembled request payload is not serializable (and the
dispatch got past the reference checks and the speciesData lookup), the
task is marked "Failed: Data serialization error", its id is removed from
the active set, and no message is posted to the worker. -/
theorem C7_serialization_failure (st : UIState)
    (fileName sigContent fileId : String)
    (hg : strOptFalsy st.loadedGenomeSig = false)
    (hy : strOptFalsy st.loadedYchrSig = false)
    (hs : (speciesData_specific_chrs st.selectedSpecies
      st.selectedGenome).isSome = true) :
    UIAction.updateProgress fileId 100 "Failed: Data serialization error"
        "bg-danger"
      ∈ (processSignature st fileName sigContent fileId false).2 ∧
    fileId ∉ (processSignature st fileName sigContent fileId
      false).1.activeFileIds ∧
    workerPosts (processSignature st fileName sigContent fileId false).2
      = [] := by
  rcases hso : speciesData_specific_chrs st.selectedSpecies st.selectedGenome
    with _ | chrs
  · rw [hso] at hs; exact absurd hs (by simp)
  · refine ⟨?_, ?_, ?_⟩ <;>
      simp [processSignature, hg, hy, hso, workerPosts]

/-- C7 witness: at `loadedState` with an unserializable payload the
hypotheses hold and the conclusion evaluates. -/
theorem C7_serialization_failure_witness :
    UIAction.updateProgress "file-1" 100 "Failed: Data serialization error"
        "bg-danger"
      ∈ (processSignature loadedState "sample1.sig" "SIG" "file-1" false).2 ∧
    "file-1" ∉ (processSignature loadedState "sample1.sig" "SIG" "file-1"
      false).1.activeFileIds ∧
    workerPosts (processSignature loadedState "sample1.sig" "SIG" "file-1"
      false).2 = [] :=
  C7_serialization_failure loadedState "sample1.sig" "SIG" "file-1" rfl rfl rfl

/-- C8: a progress or result event whose fileId is not in the active set
leaves the UI state unchanged and produces no effect — a no-op, not an
error. -/
theorem C8_inactive_event_noop (st : UIState) (fileId : String)
    (percentage : Nat) (statusText : String) (err : Option String)
    (record : List (String × JSVal))
    (h : fileId ∉ st.activeFileIds) :
    handleWorkerMessage st (WorkerMsg.progress fileId percentage statusText err)
      = (st, []) ∧
    handleWorkerMessage st (WorkerMsg.result fileId record) = (st, []) := by
  constructor <;> simp [handleWorkerMessage, h]

/-- C8 witness: an event for the unknown id "ghost" at `baseState` is a
no-op. -/
theorem C8_inactive_event_noop_witness :
    handleWorkerMessage baseState (WorkerMsg.progress "ghost" 100 "Completed" none)
      = (baseState, []) ∧
    handleWorkerMessage baseState (WorkerMsg.result "ghost" recordNA)
      = (baseState, []) :=
  C8_inactive_event_noop baseState "ghost" 100 "Completed" none recordNA
    (by decide)

/-- C9: rendering a result row writes `resultCellText` of each value, and
every falsy value (0, "", false, null) renders as "N/A", not only fields
missing from the record. -/
theorem C9_falsy_rendered_as_NA (st : UIState) (fileId : String)
    (record : List (String × JSVal)) :
    (displayResultsInTable st record fileId).table.rows =
      st.table.rows ++ [record.map (fun kv => resultCellText kv.2)] ∧
    ∀ v : JSVal, v.truthy = false → resultCellText v = "N/A" := by
  refine ⟨rfl, ?_⟩
  intro v hv
  simp [resultCellText, hv]

/-- C9 witness: a record carrying the number 0 renders the single cell
"N/A"; each of the four falsy values renders as "N/A". -/
theorem C9_falsy_rendered_as_NA_witness :
    (displayResultsInTable loadedState [("Number of bases", JSVal.vNum 0)]
      "file-1").table.rows = loadedState.table.rows ++ [["N/A"]] ∧
    resultCellText (JSVal.vNum 0) = "N/A" ∧
    resultCellText (JSVal.vStr "") = "N/A" ∧
    resultCellText (JSVal.vBool false) = "N/A" ∧
    resultCellText JSVal.vNull = "N/A" := by
  have h := C9_falsy_rendered_as_NA loadedState "file-1"
    [("Number of bases", JSVal.vNum 0)]
  exact ⟨h.1, h.2 _ rfl, h.2 _ rfl, h.2 _ rfl, h.2 _ rfl⟩

/-- C3 (code bug): the Python-side `result_json` dict does hold every one
of the fixed named fields in the fixed order with "N/A" sentinels, but
the record actually carried by the worker's result message is empty: the
`toJs()` Map → `JSON.stringify` → `JSON.parse` transport of
worker.js:132-136 drops every field before `postMessage`.  Evaluated at a
successful run whose black-box output has no fields. -/
theorem C3_result_record_dropped :
    (result_json (fun _ => none)).map Prod.fst = metricsFields ∧
    workerProcess "file-1" "sample1.sig" (Except.ok (fun _ => none)) =
      [WorkerMsg.progress "file-1" 50 "Setting up Python environment..." none,
       WorkerMsg.progress "file-1" 60 "Running Python processing..." none,
       WorkerMsg.progress "file-1" 100 "Completed" none,
       WorkerMsg.result "file-1" []] :=
  ⟨rfl, rfl⟩

/-- C4 (code bug): the row rendered for a completed task never contains
its File ID (the File ID and Sample Name cells are built but never
appended, main.js lines 439 and 444), while `removeTableRow` matches the
id against cell 0; removal by id therefore deletes nothing.  Evaluated at
a table holding exactly the one row rendered for fileId "file-1". -/
theorem C4_removal_by_id_misses_row :
    (displayResultsInTable loadedState recordNA "file-1").table.rows.length
      = 1 ∧
    (removeTableRow (displayResultsInTable loadedState recordNA "file-1").table
        "sample1.sig" (some "file-1")).rows
      = (displayResultsInTable loadedState recordNA "file-1").table.rows := by
  constructor
  · rfl
  · rfl

/-- C5 counterexample: a terminal Failed progress event for the active
task "file-1" leaves "file-1" in the active set (the progress branch of
worker.onmessage never deletes it). -/
theorem C5_failed_progress_counterexample :
    "file-1" ∈ (handleWorkerMessage baseState
      (WorkerMsg.progress "file-1" 100 "Failed" (some "boom"))).1.activeFileIds
      := by
  decide

/-- C5 (amended): after a result is rendered the task's id is removed from
the active set, but a terminal Failed progress event leaves the UI state —
including the active set — unchanged; removal on failure happens only on
the dispatch-side failure paths of processSignature. -/
theorem C5_terminal_removal_amended (st : UIState) (fileId : String)
    (record : List (String × JSVal)) (statusText : String)
    (err : Option String)
    (h : fileId ∈ st.activeFileIds) :
    fileId ∉ (handleWorkerMessage st
      (WorkerMsg.result fileId record)).1.activeFileIds ∧
    (handleWorkerMessage st
      (WorkerMsg.progress fileId 100 statusText err)).1 = st := by
  constructor
  · simp [handleWorkerMessage, h, displayResultsInTable]
  · simp [handleWorkerMessage, h]

/-- C5 witness: at `baseState` with active id "file-1" the hypotheses hold
and both conclusions evaluate. -/
theorem C5_terminal_removal_amended_witness :
    "file-1" ∉ (handleWorkerMessage baseState
      (WorkerMsg.result "file-1" recordNA)).1.activeFileIds ∧
    (handleWorkerMessage baseState
      (WorkerMsg.progress "file-1" 100 "Failed" (some "boom"))).1
      = baseState :=
  C5_terminal_removal_amended baseState "file-1" recordNA "Failed"
    (some "boom") (by decide)

/-- C6 counterexample: when the selected amplicon file cannot be fetched,
the load fails, yet `specificChrsLoaded` has already been overwritten —
the previously loaded state is not left untouched. -/
theorem C6_load_failure_counterexample :
    (loadData env0 preLoadState).2 =
      LoadResult.loadError
        ("Amplicon file not found: " ++ ampliconPath "human" "exome") ∧
    (loadData env0 preLoadState).1.specificChrsLoaded
      ≠ preLoadState.specificChrsLoaded := by
  constructor
  · rfl
  · decide

/-- C6 (amended): when the reference-data load fails because a required
path cannot be retrieved, the operation reports an error and
`loadedGenomeSig`, `loadedYchrSig`, `loadedAmpliconSig` and
`mainDataLoaded` are left unchanged; `specificChrsLoaded`, however, has
already been overwritten when the failing fetch is the amplicon one. -/
theorem C6_load_failure_amended (env : FetchEnv) (st : UIState) (msg : String)
    (h : (loadData env st).2 = LoadResult.loadError msg) :
    (loadData env st).1.loadedGenomeSig = st.loadedGenomeSig ∧
    (loadData env st).1.loadedYchrSig = st.loadedYchrSig ∧
    (loadData env st).1.loadedAmpliconSig = st.loadedAmpliconSig ∧
    (loadData env st).1.mainDataLoaded = st.mainDataLoaded := by
  by_cases h0 : st.mainDataLoaded = true
  · simp [loadData, h0] at h
  · rcases hg : env.fetch (genomePath st.selectedSpecies st.selectedGenome)
      with _ | genomeContent
    · simp [loadData, h0, hg]
    · rcases hy : env.fetch (ychrPath st.selectedSpecies st.selectedYchr)
        with _ | ychrContent
      · simp [loadData, h0, hg, hy]
      · rcases hsp : speciesData_specific_chrs st.selectedSpecies
          st.selectedGenome with _ | chrs
        · simp [loadData, h0, hg, hy, hsp]
        · by_cases ha : st.selectedAmplicon = ""
          · simp [loadData, h0, hg, hy, hsp, ha] at h
          · rcases ham : env.fetch (ampliconPath st.selectedSpecies
              st.selectedAmplicon) with _ | ampliconContent
            · simp [loadData, h0, hg, hy, hsp, ha, ham]
            · simp [loadData, h0, hg, hy, hsp, ha, ham] at h

/-- C6 witness: at `env0` and `preLoadState` the failing amplicon fetch
reports an error and leaves the four untouched fields unchanged. -/
theorem C6_load_failure_amended_witness :
    (loadData env0 preLoadState).1.loadedGenomeSig
      = preLoadState.loadedGenomeSig ∧
    (loadData env0 preLoadState).1.loadedYchrSig
      = preLoadState.loadedYchrSig ∧
    (loadData env0 preLoadState).1.loadedAmpliconSig
      = preLoadState.loadedAmpliconSig ∧
    (loadData env0 preLoadState).1.mainDataLoaded
      = preLoadState.mainDataLoaded :=
  C6_load_failure_amended env0 preLoadState
    ("Amplicon file not found: " ++ ampliconPath "human" "exome") rfl

/-- C10: for a request whose ampliconContent is null the Python variable
`amplicon_sig_str` receives the string "null"; the object-literal fallback
is unreachable because `JSON.stringify` of any amplicon payload is a
non-empty string. -/
theorem C10_amplicon_null_serialization :
    amplicon_sig_str AmpliconPayload.null = "null" ∧
    ∀ v : AmpliconPayload, jsonStringifyAmplicon v ≠ "" ∧
      amplicon_sig_str v = jsonStringifyAmplicon v := by
  refine ⟨rfl, ?_⟩
  intro v
  have hne : jsonStringifyAmplicon v ≠ "" := by
    cases v with
    | null => decide
    | str s =>
        intro hc
        have hlen := congrArg String.length hc
        rw [jsonStringifyAmplicon] at hlen
        rw [String.length_append, String.length_append] at hlen
        simp [String.length] at hlen
  exact ⟨hne, by simp [amplicon_sig_str, hne]⟩

end SnipeWeb
